import Mathlib

/-!
Shallow embedding of the simulation core of `src/app/components/DinoGame.tsx`
(an endless-runner canvas game). JavaScript numbers are modelled as `ℚ`
(exact rationals); `Math.floor` is modelled by `Rat.floor`; integers coming
from canvas dimensions and image dimensions are `ℕ`. Decimal literals such as
`0.12` are modelled by the exact rationals they denote. Rendering (canvas
drawing) is side-effect free with respect to the simulation state, except for
the run-animation frame counter and the ground scroll offset, which no claim
mentions; those two render-only counters are omitted from the state.
-/

namespace DinoGame

/-- `Math.floor` on a JavaScript number, modelled as the floor of a rational.
`Rat.floor` is used (rather than `Int.floor`) so that concrete instances
evaluate by `decide`; the two agree, see `jsFloor_eq_floor`. -/
def jsFloor (q : ℚ) : ℤ := q.floor

theorem jsFloor_eq_floor (q : ℚ) : jsFloor q = ⌊q⌋ := by
  rw [jsFloor, Rat.floor_def', Rat.floor_def]

/-- An `HTMLImageElement`'s dimensions as read by the game code.
The code tests `img && img.width && img.height` (truthiness), i.e. the
image reference is present and both dimensions are nonzero; a missing or
never-loaded image is `none`, an image that reports no usable dimensions
has a zero `width` or `height`. -/
structure Img where
  width : ℕ
  height : ℕ
deriving DecidableEq

/-- Axis-aligned rectangle `(x, y, w, h)`, used for draw rects and hitboxes. -/
structure Box where
  x : ℚ
  y : ℚ
  w : ℚ
  h : ℚ
deriving DecidableEq

/-- An obstacle (lines 5-10): `x`, `width`, `height` and an optional sprite. -/
structure Obstacle where
  x : ℚ
  width : ℚ
  height : ℚ
  img : Option Img
deriving DecidableEq

/-- A decorative cloud (lines 12-17). -/
structure Cloud where
  x : ℚ
  y : ℚ
  speed : ℚ
  scale : ℚ
deriving DecidableEq

/-- The five loaded assets (lines 54-67); `none` models an image that has not
(yet) loaded. -/
structure Assets where
  ground : Option Img
  cloud : Option Img
  tree1 : Option Img
  tree2 : Option Img
  character : Option Img
deriving DecidableEq

/-- No asset has loaded. -/
def noAssets : Assets := ⟨none, none, none, none, none⟩

/-- `PLAYER_WIDTH` (line 44). -/
def PLAYER_WIDTH : ℚ := 56

/-- `PLAYER_HEIGHT` (line 45). -/
def PLAYER_HEIGHT : ℚ := 64

/-- `RUN_FRAMES` (line 48). -/
def RUN_FRAMES : ℕ := 4

/-- `gravityRef` (line 35), px/s². -/
def gravity : ℚ := 1350

/-- `jumpVelocityRef` (line 36), px/s. -/
def jumpVelocity : ℚ := -560

/-- Initial `speedRef` (line 34) and the value `resetGame` restores (line 107). -/
def baseSpeed : ℚ := 260

/-- The speed cap (line 217). -/
def maxSpeed : ℚ := 560

/-- `Math.floor(canvas.height / 2)` (lines 222, 294, 342): `canvas.height`
is a natural number, so this is natural division. -/
def groundTopY (ch : ℕ) : ℚ := (ch / 2 : ℕ)

/-- `groundY = groundTopY - PLAYER_HEIGHT` (line 223). -/
def groundY (ch : ℕ) : ℚ := groundTopY ch - PLAYER_HEIGHT

/-- `px = Math.floor((canvas.width - PLAYER_WIDTH) / 2)` (line 266). -/
def playerX (cw : ℕ) : ℚ := (jsFloor (((cw : ℚ) - PLAYER_WIDTH) / 2) : ℤ)

/-- The character draw rect `(cdx, cdy, cdw, cdh)` (lines 271-283): when the
character image is usable the sprite frame is contain-fitted into the
`PLAYER_WIDTH × PLAYER_HEIGHT` rectangle and aligned bottom-center; otherwise
the full player rectangle is used. (For a usable image of width 1-3 the frame
width floors to 0 and JavaScript would divide by zero yielding `Infinity`;
this model, like every sprite sheet the game ships, is only meaningful for
`RUN_FRAMES ≤ width`.) -/
def charDrawRect (cw : ℕ) (py : ℚ) (character : Option Img) : Box :=
  let px := playerX cw
  match character with
  | some i =>
      if 0 < i.width ∧ 0 < i.height then
        let frameWb : ℕ := i.width / RUN_FRAMES
        let swb : ℚ := frameWb
        let shb : ℚ := i.height
        let scaleB : ℚ := min (PLAYER_WIDTH / swb) (PLAYER_HEIGHT / shb)
        let cdw : ℚ := (jsFloor (swb * scaleB) : ℤ)
        let cdh : ℚ := (jsFloor (shb * scaleB) : ℤ)
        let cdx : ℚ := (jsFloor (px + (PLAYER_WIDTH - cdw) / 2) : ℤ)
        let cdy : ℚ := (jsFloor (py + (PLAYER_HEIGHT - cdh)) : ℤ)
        ⟨cdx, cdy, cdw, cdh⟩
      else ⟨px, py, PLAYER_WIDTH, PLAYER_HEIGHT⟩
  | none => ⟨px, py, PLAYER_WIDTH, PLAYER_HEIGHT⟩

/-- The player hitbox `(cax, cay, caw, cah)` (lines 284-290): the character
draw rect shrunk by `Math.floor(cdw * 0.12)` horizontally and
`Math.floor(cdh * 0.08)` vertically, each dimension kept at least 1. In the
source this shrink is applied to whatever `charDrawRect` produced, with no
check that the image loaded. -/
def playerHitbox (cw : ℕ) (py : ℚ) (character : Option Img) : Box :=
  let cd := charDrawRect cw py character
  let charShrinkX : ℚ := (jsFloor (cd.w * (12 / 100)) : ℤ)
  let charShrinkY : ℚ := (jsFloor (cd.h * (8 / 100)) : ℤ)
  ⟨cd.x + charShrinkX, cd.y + charShrinkY,
   max 1 (cd.w - charShrinkX * 2), max 1 (cd.h - charShrinkY * 2)⟩

/-- The obstacle hitbox `(oax, oay, oaw, oah)` (lines 294-305): the obstacle
rectangle, bottom-aligned on the ground line, shrunk by
`Math.floor(ow * 0.15)` horizontally and `Math.floor(oh * 0.05)` vertically.
In the source this shrink is applied to every obstacle, with or without a
sprite image. -/
def obstacleHitbox (ch : ℕ) (o : Obstacle) : Box :=
  let oy := groundTopY ch - o.height
  let obsShrinkX : ℚ := (jsFloor (o.width * (15 / 100)) : ℤ)
  let obsShrinkY : ℚ := (jsFloor (o.height * (5 / 100)) : ℤ)
  ⟨o.x + obsShrinkX, oy + obsShrinkY,
   max 1 (o.width - obsShrinkX * 2), max 1 (o.height - obsShrinkY * 2)⟩

/-- The `noOverlap` separation test (line 307). -/
def noOverlap (p o : Box) : Prop :=
  p.x + p.w ≤ o.x ∨ p.x ≥ o.x + o.w ∨ p.y + p.h ≤ o.y ∨ p.y ≥ o.y + o.h

instance (p o : Box) : Decidable (noOverlap p o) := by
  unfold noOverlap; infer_instance

/-- Two hitboxes collide when `noOverlap` fails (line 308). -/
def boxesCollide (p o : Box) : Prop := ¬ noOverlap p o

instance (p o : Box) : Decidable (boxesCollide p o) := by
  unfold boxesCollide; infer_instance

/-- The collision scan (lines 292-312): only while running, the tick ends the
game as soon as some live obstacle's hitbox overlaps the player hitbox. -/
def collisionTriggered (ch : ℕ) (running : Bool) (pbox : Box)
    (obs : List Obstacle) : Bool :=
  running && obs.any fun o => decide (boxesCollide pbox (obstacleHitbox ch o))

/-- The full game-session state mutated by one tick: React state
(`isRunning`, `isGameOver`, `score`) together with the simulation refs. The
render-only refs (`runFrameRef`, `runFrameTimerRef`, `groundScrollRef`) are
not part of this state; no claim concerns them. -/
structure GameState where
  isRunning : Bool
  isGameOver : Bool
  score : ℤ
  speed : ℚ
  playerY : ℚ
  playerVy : ℚ
  onGround : Bool
  obstacles : List Obstacle
  spawnTimer : ℚ
  clouds : List Cloud
  cloudSpawnTimer : ℚ
deriving DecidableEq

/-- The state at mount time: `useState`/`useRef` initial values
(lines 22-42). -/
def initialState : GameState :=
  { isRunning := false, isGameOver := false, score := 0, speed := baseSpeed,
    playerY := 0, playerVy := 0, onGround := true, obstacles := [],
    spawnTimer := 0, clouds := [], cloudSpawnTimer := 0 }

/-- `resetGame` (lines 102-121), given the canvas height `ch`. -/
def resetGame (ch : ℕ) (s : GameState) : GameState :=
  { s with
    isGameOver := false, score := 0, speed := baseSpeed,
    obstacles := [], spawnTimer := 0, clouds := [], cloudSpawnTimer := 0,
    onGround := true, playerVy := 0, playerY := groundY ch,
    isRunning := true }

/-- `jump` (lines 143-148): only when grounded, running and not game over does
it clear the grounded flag and set the vertical velocity to
`jumpVelocityRef.current`; otherwise the call does nothing. -/
def jump (s : GameState) : GameState :=
  if s.onGround = true ∧ s.isRunning = true ∧ s.isGameOver = false then
    { s with onGround := false, playerVy := jumpVelocity }
  else s

/-- The outcomes of the `Math.random()` calls a single tick may make
(lines 232, 234, 242, 255, 256, 257, 259); each field is the sampled value
(a rational in `[0, 1)` in the real program, unconstrained here). -/
structure Rand where
  tree1Pick : Bool
  obHeight : ℚ
  obInterval : ℚ
  cloudScale : ℚ
  cloudY : ℚ
  cloudSpeed : ℚ
  cloudInterval : ℚ
deriving DecidableEq

/-- All random draws fixed to their lowest outcome. -/
def zeroRand : Rand :=
  { tree1Pick := true, obHeight := 0, obInterval := 0, cloudScale := 0,
    cloudY := 0, cloudSpeed := 0, cloudInterval := 0 }

/-- `dt = Math.min(0.032, elapsedSeconds)` (line 211). -/
def clampDt (rawDt : ℚ) : ℚ := min (32 / 1000) rawDt

/-- The score update (lines 214-216): while running the score grows by
`Math.floor(dt * 100)`. -/
def scoreUpdate (running : Bool) (score : ℤ) (dt : ℚ) : ℤ :=
  if running then score + jsFloor (dt * 100) else score

/-- The speed update (line 217): `Math.min(560, speed + dt * 8)`. -/
def speedUpdate (speed dt : ℚ) : ℚ := min maxSpeed (speed + dt * 8)

/-- Gravity integration and ground clamp (lines 219-228): semi-implicit Euler
followed by clamping at the ground line; landing zeroes the velocity and sets
the grounded flag. Returns `(y, vy, onGround)`. -/
def integrateAndClamp (ch : ℕ) (dt y vy : ℚ) (onGround : Bool) :
    ℚ × ℚ × Bool :=
  let vy1 := vy + gravity * dt
  let y1 := y + vy1 * dt
  if y1 ≥ groundY ch then (groundY ch, 0, true) else (y1, vy1, onGround)

/-- Obstacle spawning (lines 231-243): a tree sprite is picked at random; a
usable sprite is scaled to the random base height (width at least 10), an
unusable one falls back to a plain 18-px-wide rectangle with no image. -/
def spawnObstacle (cw : ℕ) (r : Rand) (a : Assets) : Obstacle :=
  let img := if r.tree1Pick then a.tree1 else a.tree2
  let baseH : ℚ := 48 + (jsFloor (r.obHeight * 28) : ℤ)
  match img with
  | some i =>
      if 0 < i.width ∧ 0 < i.height then
        let scale : ℚ := baseH / (i.height : ℚ)
        let w : ℚ := (max 10 (jsFloor ((i.width : ℚ) * scale)) : ℤ)
        ⟨(cw : ℚ) + 10, w, baseH, some i⟩
      else ⟨(cw : ℚ) + 10, 18, baseH, none⟩
  | none => ⟨(cw : ℚ) + 10, 18, baseH, none⟩

/-- Cloud spawning (lines 254-259). -/
def spawnCloud (cw ch : ℕ) (r : Rand) (speed : ℚ) : Cloud :=
  { x := (cw : ℚ) + 20,
    y := 10 + r.cloudY * max 10 ((ch : ℚ) * (25 / 100)),
    speed := max 20 (speed * (25 / 100) * (7 / 10 + r.cloudSpeed * (6 / 10))),
    scale := 6 / 10 + r.cloudScale * (6 / 10) }

/-- One simulation tick, `step` (lines 209-313): the order of updates follows
the source exactly — dt clamp; score; speed; physics and ground clamp;
obstacle spawn, move, cull; cloud spawn, move, cull; player hitbox; collision
scan. On a collision, `endGame` (lines 123-141) flips the running/game-over
flags (its score persistence is modelled separately by `recordScore`); the
early `return` skips only rendering, every state update above having already
happened. `rawDt` is the elapsed time in seconds (`(time - last) / 1000`,
zero on the first frame). -/
def stepSim (cw ch : ℕ) (a : Assets) (r : Rand) (rawDt : ℚ)
    (s : GameState) : GameState :=
  let dt := clampDt rawDt
  let score1 := scoreUpdate s.isRunning s.score dt
  let speed1 := speedUpdate s.speed dt
  let pcs := integrateAndClamp ch dt s.playerY s.playerVy s.onGround
  let st1 := s.spawnTimer - dt
  let obsSpawned :=
    if st1 ≤ 0 then s.obstacles ++ [spawnObstacle cw r a] else s.obstacles
  let st2 := if st1 ≤ 0 then 9 / 10 + r.obInterval * (9 / 10) else st1
  let obsMoved := obsSpawned.map fun o => { o with x := o.x - speed1 * dt }
  let obs1 := obsMoved.filter fun o => decide (o.x + o.width > 0)
  let ct1 := s.cloudSpawnTimer - dt
  let cloudsSpawned :=
    if ct1 ≤ 0 then s.clouds ++ [spawnCloud cw ch r speed1] else s.clouds
  let ct2 := if ct1 ≤ 0 then 2 + r.cloudInterval * 3 else ct1
  let cloudsMoved := cloudsSpawned.map fun c => { c with x := c.x - c.speed * dt }
  let clouds1 := cloudsMoved.filter fun c => decide (c.x > -200)
  let pbox := playerHitbox cw pcs.1 a.character
  let hit := collisionTriggered ch s.isRunning pbox obs1
  let s1 : GameState :=
    { isRunning := s.isRunning, isGameOver := s.isGameOver, score := score1,
      speed := speed1, playerY := pcs.1, playerVy := pcs.2.1,
      onGround := pcs.2.2, obstacles := obs1, spawnTimer := st2,
      clouds := clouds1, cloudSpawnTimer := ct2 }
  if hit then { s1 with isRunning := false, isGameOver := true } else s1

/-- `n` consecutive ticks; `rands i` and `dts i` are the random draws and the
elapsed time of tick `i`. -/
def runTicks (cw ch : ℕ) (a : Assets) (rands : ℕ → Rand) (dts : ℕ → ℚ) :
    ℕ → GameState → GameState
  | 0, s => s
  | n + 1, s => stepSim cw ch a (rands n) (dts n) (runTicks cw ch a rands dts n s)

/-- Descending sort, `arr.sort((a, b) => b - a)` (line 137). -/
def sortDesc (l : List ℤ) : List ℤ := l.insertionSort (· ≥ ·)

/-- The top-10 list update in `endGame` (lines 133-140): push the finished
score, sort descending, keep the first 10; the same value is persisted and
shown (`arr.slice(0, 10)`). -/
def recordScore (l : List ℤ) (s : ℤ) : List ℤ := (sortDesc (l ++ [s])).take 10

/-- The three ways a `localStorage` read can come back: the call throws
(storage unavailable), the key is absent (`null`), or a value is present. -/
inductive ReadResult (α : Type) where
  | throws : ReadResult α
  | missing : ReadResult α
  | value : α → ReadResult α
deriving DecidableEq

/-- `cs` consists only of decimal digits (and is nonempty). -/
def allDigits (cs : List Char) : Bool :=
  !cs.isEmpty && cs.all fun c => 48 ≤ c.toNat && c.toNat ≤ 57

/-- The number denoted by a list of decimal digits. -/
def digitsToNat (cs : List Char) : ℕ :=
  cs.foldl (fun n c => n * 10 + (c.toNat - 48)) 0

/-- JavaScript `Number(s)` for a string `s` given as its character list,
modelled on the formats relevant here: the empty string converts to `0`, an
optional-minus decimal integer string to its value, and any other string to
`NaN`, represented as `none`. (Fractional, exponent, hex and whitespace forms
never arise: the game only ever writes `String(int)` to this key.) -/
def jsNumber (cs : List Char) : Option ℤ :=
  match cs with
  | [] => some 0
  | c :: rest =>
      if c.toNat = 45 then
        if allDigits rest then some (-(digitsToNat rest : ℤ)) else none
      else if allDigits (c :: rest) then some (digitsToNat (c :: rest))
      else none

/-- The high score that results from the load effect (lines 70-75), starting
from the initial `useState(0)`: a throwing read is swallowed by the empty
`catch`, a missing or empty value fails the `if (saved)` truthiness test, and
otherwise `setHighScore(Number(saved))` runs — with no validation, so a
malformed value stores `NaN` (modelled as `none`). -/
def loadHighScore (r : ReadResult (List Char)) : Option ℤ :=
  match r with
  | .throws => some 0
  | .missing => some 0
  | .value s => if s.isEmpty then some 0 else jsNumber s

/-- The top-score list that results from the leaderboard preload effect
(lines 410-417), starting from the initial `useState([])`. The argument is
the outcome of `localStorage.getItem` composed with `JSON.parse`: the read
may throw, the key may be absent (`raw` is `null`, so `arr` defaults to
`[]`), the stored text may fail to parse (`JSON.parse` throws, the `catch`
leaves the initial `[]`), or it parses to an array of numbers, of which
`slice(0, 10)` is kept. -/
def loadTopScores (r : ReadResult (Option (List ℤ))) : List ℤ :=
  match r with
  | .throws => []
  | .missing => []
  | .value none => []
  | .value (some l) => l.take 10

/-- Tail of the animation-frame chain after an initial tick (line 403): a
tick schedules a successor only while `isRunning`, so over `n` further
animation frames `n` more ticks run when running and none otherwise. -/
def extraTicks (isRunning : Bool) : ℕ → ℕ
  | 0 => 0
  | n + 1 => if isRunning then 1 + extraTicks isRunning n else 0

/-- Number of ticks that run during the first `n` animation frames after the
loop effect fires: the effect body returns early unless the session is
running or the menu is showing (line 204), otherwise it schedules one initial
tick (line 406), whose successors follow `extraTicks` (line 403). Both guards
are evaluated with the flags the effect closed over. -/
def ticksWithin (isRunning showMenu : Bool) : ℕ → ℕ
  | 0 => 0
  | n + 1 => if isRunning || showMenu then 1 + extraTicks isRunning n else 0

/-- A freshly started session (concrete instantiations below use it). -/
def runningState : GameState := { initialState with isRunning := true }

/-- A running session with the player in mid-air. -/
def airborneState : GameState :=
  { initialState with isRunning := true, onGround := false, playerY := 100 }

/-! ### Helper lemmas -/

theorem stepSim_score (cw ch : ℕ) (a : Assets) (r : Rand) (rawDt : ℚ)
    (s : GameState) :
    (stepSim cw ch a r rawDt s).score =
      scoreUpdate s.isRunning s.score (clampDt rawDt) := by
  simp only [stepSim, apply_ite GameState.score, apply_ite GameState.speed,
    apply_ite GameState.playerY, apply_ite GameState.playerVy,
    apply_ite GameState.onGround, ite_self]

theorem stepSim_speed (cw ch : ℕ) (a : Assets) (r : Rand) (rawDt : ℚ)
    (s : GameState) :
    (stepSim cw ch a r rawDt s).speed =
      speedUpdate s.speed (clampDt rawDt) := by
  simp only [stepSim, apply_ite GameState.score, apply_ite GameState.speed,
    apply_ite GameState.playerY, apply_ite GameState.playerVy,
    apply_ite GameState.onGround, ite_self]

theorem stepSim_playerY (cw ch : ℕ) (a : Assets) (r : Rand) (rawDt : ℚ)
    (s : GameState) :
    (stepSim cw ch a r rawDt s).playerY =
      (integrateAndClamp ch (clampDt rawDt) s.playerY s.playerVy s.onGround).1 := by
  simp only [stepSim, apply_ite GameState.score, apply_ite GameState.speed,
    apply_ite GameState.playerY, apply_ite GameState.playerVy,
    apply_ite GameState.onGround, ite_self]

theorem stepSim_playerVy (cw ch : ℕ) (a : Assets) (r : Rand) (rawDt : ℚ)
    (s : GameState) :
    (stepSim cw ch a r rawDt s).playerVy =
      (integrateAndClamp ch (clampDt rawDt) s.playerY s.playerVy s.onGround).2.1 := by
  simp only [stepSim, apply_ite GameState.score, apply_ite GameState.speed,
    apply_ite GameState.playerY, apply_ite GameState.playerVy,
    apply_ite GameState.onGround, ite_self]

theorem stepSim_onGround (cw ch : ℕ) (a : Assets) (r : Rand) (rawDt : ℚ)
    (s : GameState) :
    (stepSim cw ch a r rawDt s).onGround =
      (integrateAndClamp ch (clampDt rawDt) s.playerY s.playerVy s.onGround).2.2 := by
  simp only [stepSim, apply_ite GameState.score, apply_ite GameState.speed,
    apply_ite GameState.playerY, apply_ite GameState.playerVy,
    apply_ite GameState.onGround, ite_self]

theorem clampDt_nonneg {rawDt : ℚ} (h : 0 ≤ rawDt) : 0 ≤ clampDt rawDt :=
  le_min (by norm_num) h

theorem clampDt_eq {rawDt : ℚ} (h : rawDt ≤ 32 / 1000) : clampDt rawDt = rawDt :=
  min_eq_right h

/-! ### Claims -/

/-- **C9.** A Jump intent has an effect only when the player is grounded, the
session is running, and the game is not over; in particular, a Jump while
airborne (`onGround = false`) leaves the whole state — so in particular the
vertical velocity, position and grounded flag — unchanged. -/
theorem c9_jump_gated (s : GameState) :
    (s.onGround = false → jump s = s) ∧
    (¬(s.onGround = true ∧ s.isRunning = true ∧ s.isGameOver = false) →
      jump s = s) := by
  constructor
  · intro h
    simp [jump, h]
  · intro h
    simp only [jump, if_neg h]

/-- Witness for `c9_jump_gated` at a concrete airborne state. -/
theorem c9_jump_gated_witness : jump airborneState = airborneState :=
  (c9_jump_gated airborneState).1 rfl

/-- **C10.** Whenever a Jump intent fires with the player grounded, the
session running, and the game not over, the vertical velocity is set to
exactly −560 px/s and the grounded flag is cleared, all other fields of the
state left untouched. -/
theorem c10_jump_effect (s : GameState) (hg : s.onGround = true)
    (hr : s.isRunning = true) (ho : s.isGameOver = false) :
    jump s = { s with onGround := false, playerVy := jumpVelocity } ∧
      jumpVelocity = -560 := by
  refine ⟨?_, rfl⟩
  simp [jump, hg, hr, ho]

/-- Witness for `c10_jump_effect` on a freshly started session. -/
theorem c10_jump_effect_witness :
    jump runningState =
      { runningState with onGround := false, playerVy := jumpVelocity } ∧
      jumpVelocity = -560 :=
  c10_jump_effect runningState rfl rfl rfl

/-- **C2.** The game-over scan fires iff the session is running and some live
obstacle's inset hitbox strictly overlaps the player's inset hitbox on both
axes; a player box lying entirely to the left or right of an obstacle box
never collides with it. -/
theorem c2_collision_characterisation :
    (∀ p o : Box, boxesCollide p o ↔
        o.x < p.x + p.w ∧ p.x < o.x + o.w ∧ o.y < p.y + p.h ∧ p.y < o.y + o.h) ∧
    (∀ p o : Box, p.x + p.w ≤ o.x ∨ o.x + o.w ≤ p.x → ¬boxesCollide p o) ∧
    (∀ (ch : ℕ) (running : Bool) (pbox : Box) (obs : List Obstacle),
        collisionTriggered ch running pbox obs = true ↔
          running = true ∧ ∃ o ∈ obs, boxesCollide pbox (obstacleHitbox ch o)) := by
  refine ⟨?_, ?_, ?_⟩
  · intro p o
    simp only [boxesCollide, noOverlap, not_or, not_le, ge_iff_le]
  · intro p o h hc
    exact hc (h.elim Or.inl fun h2 => Or.inr (Or.inl h2))
  · intro ch running pbox obs
    simp [collisionTriggered, List.any_eq_true]

/-- Witness for `c2_collision_characterisation`: a player box wholly left of
an obstacle box does not collide. -/
theorem c2_collision_characterisation_witness :
    ¬boxesCollide ⟨0, 0, 10, 10⟩ ⟨20, 0, 5, 5⟩ :=
  c2_collision_characterisation.2.1 ⟨0, 0, 10, 10⟩ ⟨20, 0, 5, 5⟩
    (Or.inl (by norm_num))

/-- **C4.** The scroll speed starts at 260 px/s (`resetGame`), each tick sets
it to `min 560 (speed + dt*8)`, and under `0 ≤ dt` and the session invariant
`speed ≤ 560` it is non-decreasing and never exceeds 560. -/
theorem c4_speed_clamped (cw ch : ℕ) (a : Assets) (r : Rand) (rawDt : ℚ)
    (s : GameState) (hdt : 0 ≤ rawDt) (hs : s.speed ≤ maxSpeed) :
    (∀ (ch2 : ℕ) (s2 : GameState), (resetGame ch2 s2).speed = 260) ∧
    (stepSim cw ch a r rawDt s).speed = min 560 (s.speed + clampDt rawDt * 8) ∧
    s.speed ≤ (stepSim cw ch a r rawDt s).speed ∧
    (stepSim cw ch a r rawDt s).speed ≤ 560 := by
  refine ⟨fun ch2 s2 => rfl, ?_, ?_, ?_⟩
  · rw [stepSim_speed]; rfl
  · rw [stepSim_speed]
    unfold speedUpdate maxSpeed
    exact le_min (le_trans hs (by norm_num [maxSpeed]))
      (le_add_of_nonneg_right (mul_nonneg (clampDt_nonneg hdt) (by norm_num)))
  · rw [stepSim_speed]
    unfold speedUpdate maxSpeed
    exact min_le_left _ _

/-- Witness for `c4_speed_clamped` on a freshly started session with
`dt = 0.02`. -/
theorem c4_speed_clamped_witness :
    (stepSim 100 100 noAssets zeroRand (1 / 50) runningState).speed =
      min 560 (runningState.speed + clampDt (1 / 50) * 8) ∧
    runningState.speed ≤
      (stepSim 100 100 noAssets zeroRand (1 / 50) runningState).speed ∧
    (stepSim 100 100 noAssets zeroRand (1 / 50) runningState).speed ≤ 560 :=
  (c4_speed_clamped 100 100 noAssets zeroRand (1 / 50) runningState
    (by norm_num) (by norm_num [runningState, initialState, baseSpeed, maxSpeed])).2

/-- **C6.** After the clamping step of any tick the player's vertical position
never exceeds the ground line `groundY ch = ⌊ch/2⌋ − 64`, and whenever the
clamp fires (the integrated position reached the ground line) the vertical
velocity is zeroed and the grounded flag set. -/
theorem c6_ground_clamp (cw ch : ℕ) (a : Assets) (r : Rand) (rawDt : ℚ)
    (s : GameState)
    (hl : groundY ch ≤
      s.playerY + (s.playerVy + gravity * clampDt rawDt) * clampDt rawDt) :
    (∀ ch2 : ℕ, groundY ch2 = ((ch2 / 2 : ℕ) : ℚ) - 64) ∧
    (∀ (cw2 ch2 : ℕ) (a2 : Assets) (r2 : Rand) (rawDt2 : ℚ) (s2 : GameState),
        (stepSim cw2 ch2 a2 r2 rawDt2 s2).playerY ≤ groundY ch2) ∧
    (stepSim cw ch a r rawDt s).playerY = groundY ch ∧
    (stepSim cw ch a r rawDt s).playerVy = 0 ∧
    (stepSim cw ch a r rawDt s).onGround = true := by
  refine ⟨fun ch2 => rfl, ?_, ?_, ?_, ?_⟩
  · intro cw2 ch2 a2 r2 rawDt2 s2
    rw [stepSim_playerY]
    simp only [integrateAndClamp, ge_iff_le]
    split
    · exact le_refl _
    · next h => exact le_of_lt (lt_of_not_le h)
  · rw [stepSim_playerY]
    simp only [integrateAndClamp, ge_iff_le]
    rw [if_pos hl]
  · rw [stepSim_playerVy]
    simp only [integrateAndClamp, ge_iff_le]
    rw [if_pos hl]
  · rw [stepSim_onGround]
    simp only [integrateAndClamp, ge_iff_le]
    rw [if_pos hl]

/-- Witness for `c6_ground_clamp`: a grounded player with `dt = 0` is already
at the ground line, so the clamp fires. -/
theorem c6_ground_clamp_witness :
    (stepSim 100 100 noAssets zeroRand 0 (resetGame 100 initialState)).playerY =
      groundY 100 ∧
    (stepSim 100 100 noAssets zeroRand 0 (resetGame 100 initialState)).playerVy = 0 ∧
    (stepSim 100 100 noAssets zeroRand 0 (resetGame 100 initialState)).onGround = true :=
  (c6_ground_clamp 100 100 noAssets zeroRand 0 (resetGame 100 initialState)
    (by norm_num [resetGame, initialState, groundY, groundTopY, gravity, clampDt,
      PLAYER_HEIGHT])).2.2

set_option maxRecDepth 100000 in
/-- **C3.** While running, one tick with `0 ≤ dt ≤ 0.032` adds exactly
`⌊dt·100⌋` to the score; the score never decreases on any tick with `dt ≥ 0`;
and 50 consecutive running ticks of `dt = 0.02` s (a fresh session on a
1000×1000 canvas, no asset loaded, all random draws at their lowest) add
exactly 100 points while the session stays running throughout. -/
theorem c3_score_per_tick (cw ch : ℕ) (a : Assets) (r : Rand) (rawDt : ℚ)
    (s : GameState) (hrun : s.isRunning = true) (_h0 : 0 ≤ rawDt)
    (h32 : rawDt ≤ 32 / 1000) :
    (stepSim cw ch a r rawDt s).score = s.score + ⌊rawDt * 100⌋ ∧
    (∀ (s2 : GameState) (rawDt2 : ℚ), 0 ≤ rawDt2 →
        s2.score ≤ (stepSim cw ch a r rawDt2 s2).score) ∧
    (runTicks 1000 1000 noAssets (fun _ => zeroRand) (fun _ => 2 / 100) 50
        (resetGame 1000 initialState)).score = 100 ∧
    (runTicks 1000 1000 noAssets (fun _ => zeroRand) (fun _ => 2 / 100) 50
        (resetGame 1000 initialState)).isRunning = true := by
  refine ⟨?_, ?_, ?_, ?_⟩
  · rw [stepSim_score, clampDt_eq h32]
    simp [scoreUpdate, hrun, jsFloor_eq_floor]
  · intro s2 rawDt2 h02
    rw [stepSim_score]
    unfold scoreUpdate
    split
    · rw [jsFloor_eq_floor]
      exact le_add_of_nonneg_right
        (Int.floor_nonneg.mpr (mul_nonneg (clampDt_nonneg h02) (by norm_num)))
    · exact le_refl _
  · with_unfolding_all decide
  · with_unfolding_all decide

/-- Witness for `c3_score_per_tick`: one `dt = 0.02` tick of a fresh session
adds `⌊0.02·100⌋ = 2` points. -/
theorem c3_score_per_tick_witness :
    (stepSim 100 100 noAssets zeroRand (1 / 50) runningState).score =
      runningState.score + ⌊(1 / 50 : ℚ) * 100⌋ :=
  (c3_score_per_tick 100 100 noAssets zeroRand (1 / 50) runningState rfl
    (by norm_num) (by norm_num)).1

/-- **C1** fails on the code: with no usable character image the player draw
rect falls back to the full 56×64 rectangle, but the 12 %/8 % inset is still
applied to it (lines 285-290 run unconditionally), so the collision box is
not the full rectangle; likewise an image-less obstacle still gets the
15 %/5 % inset (lines 300-305). Counterexample: canvas width 56 (`px = 0`),
`py = 0`, no character image — the hitbox is not `(0, 0, 56, 64)`; obstacle
`(x=100, w=18, h=48)` with no image on a height-96 canvas — the hitbox is not
the full rectangle `(100, 0, 18, 48)`. -/
theorem c1_counterexample :
    playerHitbox 56 0 none ≠ ⟨0, 0, 56, 64⟩ ∧
    playerHitbox 56 0 none = ⟨6, 5, 44, 54⟩ ∧
    obstacleHitbox 96 ⟨100, 18, 48, none⟩ ≠ ⟨100, 0, 18, 48⟩ ∧
    obstacleHitbox 96 ⟨100, 18, 48, none⟩ = ⟨102, 2, 14, 44⟩ := by
  with_unfolding_all decide

/-- **C1 (amended).** When the character sprite is missing or reports no
usable dimensions, the draw rect falls back to the full player rectangle but
the percentage inset is applied to it anyway, giving the collision box
`(px+6, py+5, 44, 54)`; and the obstacle inset is applied independently of
whether the obstacle carries an image. The insets are unconditional, not
reserved for successfully loaded images. -/
theorem c1_inset_unconditional :
    (∀ (cw : ℕ) (py : ℚ),
        playerHitbox cw py none = ⟨playerX cw + 6, py + 5, 44, 54⟩) ∧
    (∀ (cw : ℕ) (py : ℚ) (i : Img), ¬(0 < i.width ∧ 0 < i.height) →
        playerHitbox cw py (some i) = ⟨playerX cw + 6, py + 5, 44, 54⟩) ∧
    (∀ (ch : ℕ) (o : Obstacle),
        obstacleHitbox ch o = obstacleHitbox ch { o with img := none }) := by
  refine ⟨?_, ?_, ?_⟩
  · intro cw py
    simp only [playerHitbox, charDrawRect, PLAYER_WIDTH, PLAYER_HEIGHT,
      jsFloor_eq_floor]
    norm_num
  · intro cw py i hi
    simp only [playerHitbox, charDrawRect, if_neg hi, PLAYER_WIDTH,
      PLAYER_HEIGHT, jsFloor_eq_floor]
    norm_num
  · intro ch o
    rfl

/-- Witness for `c1_inset_unconditional` at an image that loaded with zero
reported dimensions. -/
theorem c1_inset_unconditional_witness :
    playerHitbox 56 0 (some ⟨0, 0⟩) = ⟨playerX 56 + 6, 0 + 5, 44, 54⟩ :=
  c1_inset_unconditional.2.1 56 0 ⟨0, 0⟩ (by decide)

/-- **C7** fails on the code: line 403 re-schedules the next animation frame
only when `isRunning`, so with the menu open and the session not running the
single initially scheduled tick (line 406) runs and no further tick does —
the claim's unconditional re-scheduling would give one tick per frame. Over a
2-frame horizon with the menu open and the session stopped, exactly 1 tick
runs, not 2. -/
theorem c7_counterexample :
    ticksWithin false true 2 ≠ 2 ∧ ticksWithin false true 2 = 1 := by
  decide

/-- **C7 (amended).** The loop effect schedules an initial tick whenever the
session is running or the menu is open, but each tick re-schedules the next
one only while the session is running: with the menu open and the session
running a tick runs on every frame, while with the menu open and the session
not running exactly one tick runs (a single background frame is rendered and
the menu does not keep animating); with neither flag set no tick runs. -/
theorem c7_reschedule_only_while_running :
    (∀ n : ℕ, ticksWithin true true n = n) ∧
    (∀ n : ℕ, 1 ≤ n → ticksWithin false true n = 1) ∧
    (∀ n : ℕ, ticksWithin false false n = 0) := by
  have ht : ∀ n : ℕ, extraTicks true n = n := by
    intro n
    induction n with
    | zero => rfl
    | succ m ih => simp [extraTicks, ih, Nat.add_comm]
  have hf : ∀ n : ℕ, extraTicks false n = 0 := by
    intro n
    cases n <;> simp [extraTicks]
  refine ⟨?_, ?_, ?_⟩
  · intro n
    cases n with
    | zero => rfl
    | succ m => simp [ticksWithin, ht, Nat.add_comm]
  · intro n hn
    cases n with
    | zero => exact absurd hn (by norm_num)
    | succ m => simp [ticksWithin, hf]
  · intro n
    cases n <;> simp [ticksWithin]

/-- Witness for `c7_reschedule_only_while_running`: over three frames with
the menu open and the session stopped, one tick runs. -/
theorem c7_reschedule_only_while_running_witness :
    ticksWithin false true 3 = 1 :=
  c7_reschedule_only_while_running.2.1 3 (by norm_num)

/-- **C8** fails on the code for one of its cases: a throwing read and a
missing or unparsable value do default to `0` / `[]` with no exception
escaping (the effects are wrapped in `try`/`catch` and the model is total),
but a present, nonempty, non-numeric high-score string is passed straight to
`Number(...)` with no validation, so the high score becomes `NaN` (modelled
`none`), not the default 0. -/
theorem c8_counterexample :
    loadHighScore (ReadResult.value "abc".data) ≠ some 0 ∧
    loadHighScore (ReadResult.value "abc".data) = none := by
  with_unfolding_all decide

/-- **C8 (amended).** If the storage read throws or the key is absent, the
high score resolves to 0 and the top-score list to `[]`; a stored top-score
text that fails to parse also leaves `[]`; none of these paths lets an
exception propagate (the loaders are total functions). However, a present,
nonempty high-score string on which `Number` yields `NaN` resolves to `NaN`
rather than the default 0. -/
theorem c8_defaults_on_failure :
    loadHighScore ReadResult.throws = some 0 ∧
    loadHighScore ReadResult.missing = some 0 ∧
    loadTopScores ReadResult.throws = [] ∧
    loadTopScores ReadResult.missing = [] ∧
    loadTopScores (ReadResult.value none) = [] ∧
    (∀ cs : List Char, cs.isEmpty = false → jsNumber cs = none →
        loadHighScore (ReadResult.value cs) = none) := by
  refine ⟨rfl, rfl, rfl, rfl, rfl, ?_⟩
  intro cs he hn
  simp [loadHighScore, he, hn]

/-- Witness for `c8_defaults_on_failure` at the concrete stored text "x7". -/
theorem c8_defaults_on_failure_witness :
    loadHighScore (ReadResult.value "x7".data) = none :=
  c8_defaults_on_failure.2.2.2.2.2 "x7".data (by with_unfolding_all decide)
    (by with_unfolding_all decide)

theorem sortDesc_sorted (l : List ℤ) : (sortDesc l).Sorted (· ≥ ·) :=
  List.sorted_insertionSort _ l

theorem sortDesc_perm (l : List ℤ) : List.Perm (sortDesc l) l :=
  List.perm_insertionSort _ l

theorem sortDesc_congr {l₁ l₂ : List ℤ} (h : List.Perm l₁ l₂) :
    sortDesc l₁ = sortDesc l₂ :=
  List.eq_of_perm_of_sorted
    ((sortDesc_perm l₁).trans (h.trans (sortDesc_perm l₂).symm))
    (sortDesc_sorted l₁) (sortDesc_sorted l₂)

theorem sortDesc_length (l : List ℤ) : (sortDesc l).length = l.length :=
  (sortDesc_perm l).length_eq

/-- As long as at most 10 scores have been recorded, the stored list is the
full descending sort of them: the `take 10` truncation never drops anything. -/
theorem foldl_recordScore_small :
    ∀ l : List ℤ, l.length ≤ 10 → List.foldl recordScore [] l = sortDesc l := by
  intro l
  induction l using List.reverseRecOn with
  | nil => intro _; rfl
  | append_singleton l a ih =>
      intro hlen
      have hl1 : l.length + 1 ≤ 10 := by simpa using hlen
      rw [List.foldl_append, List.foldl_cons, List.foldl_nil,
        ih (by omega), recordScore,
        sortDesc_congr ((sortDesc_perm l).append_right [a])]
      exact List.take_of_length_le
        (by rw [sortDesc_length, List.length_append, List.length_singleton]; omega)

/-- **C5.** Recording a score appends it, re-sorts descending and keeps the
first 10: on the empty list `recordScore` yields the singleton; every result
is descending and at most 10 long; and after recording any 11 scores exactly
the 10 largest remain, in descending order (the stored list is the 10-element
prefix of the descending sort of all 11). -/
theorem c5_record_score :
    (∀ s : ℤ, recordScore [] s = [s]) ∧
    (∀ (l : List ℤ) (s : ℤ),
        (recordScore l s).Sorted (· ≥ ·) ∧ (recordScore l s).length ≤ 10) ∧
    (∀ l : List ℤ, l.length = 11 →
        List.foldl recordScore [] l = (sortDesc l).take 10 ∧
        (List.foldl recordScore [] l).Sorted (· ≥ ·) ∧
        (List.foldl recordScore [] l).length = 10) := by
  refine ⟨fun s => rfl, ?_, ?_⟩
  · intro l s
    constructor
    · exact List.Pairwise.sublist (List.take_sublist 10 _) (sortDesc_sorted _)
    · rw [recordScore, List.length_take]
      exact min_le_left _ _
  · intro l
    induction l using List.reverseRecOn with
    | nil => intro hlen; exact absurd hlen (by simp)
    | append_singleton l a ih =>
        intro hlen
        have hl10 : l.length = 10 := by
          simp only [List.length_append, List.length_singleton] at hlen
          omega
        have hfold : List.foldl recordScore [] (l ++ [a]) =
            (sortDesc (l ++ [a])).take 10 := by
          rw [List.foldl_append, List.foldl_cons, List.foldl_nil,
            foldl_recordScore_small l (by omega), recordScore,
            sortDesc_congr ((sortDesc_perm l).append_right [a])]
        refine ⟨hfold, ?_, ?_⟩
        · rw [hfold]
          exact List.Pairwise.sublist (List.take_sublist 10 _) (sortDesc_sorted _)
        · rw [hfold, List.length_take, sortDesc_length, List.length_append,
            List.length_singleton, hl10]
          exact min_eq_left (by omega)

/-- Witness for `c5_record_score`: eleven concrete scores leave the ten
largest, descending. -/
theorem c5_record_score_witness :
    List.foldl recordScore [] [3, 1, 4, 1, 5, 9, 2, 6, 5, 3, 7] =
      (sortDesc [3, 1, 4, 1, 5, 9, 2, 6, 5, 3, 7]).take 10 ∧
    (List.foldl recordScore [] [3, 1, 4, 1, 5, 9, 2, 6, 5, 3, 7]).Sorted (· ≥ ·) ∧
    (List.foldl recordScore [] [3, 1, 4, 1, 5, 9, 2, 6, 5, 3, 7]).length = 10 :=
  c5_record_score.2.2 [3, 1, 4, 1, 5, 9, 2, 6, 5, 3, 7] (by decide)

end DinoGame
